import Mathlib

/-!
# BinaryClock: tick counter, scheduler loop and start-up (`src/main.cpp`)

A shallow embedding of the Arduino sketch.  The sketch has one global
(`unsigned int timer`), three functions (`setup`, `loop` and the handler
`ISR(TIMER0_COMPA_vect)`) and talks to three collaborators: the serial port,
the DS3231 real-time clock and the TIMER0 registers of the micro-controller.
The collaborators are embedded as fields of `World`; what they answer
(`rtc.begin()`, `rtc.now()`) is an input of the function that asks.
-/

namespace BinaryClock

/-! ## Data model -/

/-- Facts of the build target that `main.cpp` takes from the tool-chain
headers and that are not written in the sketch itself: the width of
`unsigned int` and the bit positions named `WGM01`, `OCIE0A`, `CS00`, `CS01`. -/
structure Target where
  uintBits : Nat
  WGM01 : Nat
  OCIE0A : Nat
  CS00 : Nat
  CS01 : Nat
deriving DecidableEq, Repr

/-- The ATmega328P with avr-gcc: `unsigned int` has 16 bits; bit positions as
in the data sheet of the part. -/
def atmega328p : Target :=
  { uintBits := 16, WGM01 := 1, OCIE0A := 1, CS00 := 0, CS01 := 1 }

/-- The three fields of the RTC library's `DateTime` that the sketch reads. -/
structure DateTime where
  hour : Nat
  minute : Nat
  second : Nat
deriving DecidableEq, Repr

/-- Everything the sketch can read or change. -/
structure World where
  /-- The global `unsigned int timer` (line 4). -/
  timer : Nat
  /-- All characters written to `Serial` so far, oldest first. -/
  serial : List Char
  /-- Baud rate given to `Serial.begin`, if it was called. -/
  baud : Option Nat
  /-- Number of calls of `Serial.flush()`. -/
  flushes : Nat
  /-- Arguments of the calls of `rtc.adjust`, oldest first. -/
  rtcAdjusts : List DateTime
  /-- Number of calls of `rtc.now()`. -/
  rtcQueries : Nat
  TCCR0A : Nat
  TCCR0B : Nat
  OCR0A : Nat
  TIMSK0 : Nat
  /-- Global interrupt enable flag, set by `sei()`. -/
  iflag : Bool
  /-- Set once `abort()` was called; `abort()` does not return. -/
  aborted : Bool
deriving DecidableEq, Repr

/-! ## The serial port (`Print` of the Arduino core) -/

/-- `Serial.print(c)` for a character. -/
def printChar (c : Char) (w : World) : World :=
  { w with serial := w.serial ++ [c] }

/-- `Serial.print(s)` for a string literal. -/
def printStr (s : String) (w : World) : World :=
  { w with serial := w.serial ++ s.toList }

/-- `Serial.print(n, DEC)`: the decimal digits of `n`, most significant first,
no padding, `"0"` for zero. -/
def printDec (n : Nat) (w : World) : World :=
  { w with serial := w.serial ++ Nat.toDigits 10 n }

/-- `Serial.println(s)`: the text, then carriage return and line feed. -/
def println (s : String) (w : World) : World :=
  { w with serial := w.serial ++ s.toList ++ ['\r', '\n'] }

/-! ## The sketch -/

/-- `ISR(TIMER0_COMPA_vect)` (lines 65-68): `timer++` on an `unsigned int`. -/
def TIMER0_COMPA_vect (p : Target) (w : World) : World :=
  { w with timer := (w.timer + 1) % 2 ^ p.uintBits }

/-- `loop()` (lines 30-63), run with no interrupt in between.  `now` is what
`rtc.now()` answers in this iteration. -/
def loop (now : DateTime) (w : World) : World :=
  if w.timer ≥ 1000 then
    let w := { w with timer := 0 }
    let w := { w with rtcQueries := w.rtcQueries + 1 }
    let hour := now.hour
    let minute := now.minute
    let second := now.second
    let w := if hour < 10 then printChar '0' w else w
    let w := printDec hour w
    let w := printStr ":" w
    let w := if minute < 10 then printChar '0' w else w
    let w := printDec minute w
    let w := printStr ":" w
    let w := if second < 10 then printChar '0' w else w
    let w := printDec second w
    let w := printChar '\t' w
    let w := printDec w.timer w
    printChar '\n' w
  else
    w

/-- `setup()` (lines 6-28).  `rtcFound` is what `rtc.begin()` answers,
`buildTime` is `DateTime(F(__DATE__), F(__TIME__))`.  The registers are eight
bits wide. -/
def setup (p : Target) (rtcFound : Bool) (buildTime : DateTime) (w : World) : World :=
  let w := { w with baud := some 9600 }
  if !rtcFound then
    let w := println "Couldn't find RTC" w
    let w := { w with flushes := w.flushes + 1 }
    { w with aborted := true }
  else
    let w := println "Setting the time..." w
    let w := { w with rtcAdjusts := w.rtcAdjusts ++ [buildTime] }
    let w := { w with TCCR0A := (1 <<< p.WGM01) % 256 }
    let w := { w with OCR0A := 0xF9 }
    let w := { w with TIMSK0 := (w.TIMSK0 ||| (1 <<< p.OCIE0A)) % 256 }
    let w := { w with iflag := true }
    let w := { w with TCCR0B := (w.TCCR0B ||| (1 <<< p.CS01)) % 256 }
    { w with TCCR0B := (w.TCCR0B ||| (1 <<< p.CS00)) % 256 }

/-! ## Runs of atomic steps -/

/-- One atomic step of a run: the handler fires once, or the Arduino core
calls `loop()` once (with the answer `rtc.now()` would give). -/
inductive Step where
  | tick
  | loop (now : DateTime)
deriving DecidableEq, Repr

/-- Effect of one step.  The core calls `loop()` only after `setup()` has
returned, which it never does once `abort()` was called. -/
def sketchStep (p : Target) (w : World) : Step → World
  | Step.tick => TIMER0_COMPA_vect p w
  | Step.loop now => if w.aborted then w else loop now w

/-- Effect of a schedule of steps, first step first. -/
def run (p : Target) (w : World) (sched : List Step) : World :=
  sched.foldl (sketchStep p) w

/-- The whole sketch as the Arduino core runs it: `setup()` once, then the
schedule. -/
def runSketch (p : Target) (rtcFound : Bool) (buildTime : DateTime) (w : World)
    (sched : List Step) : World :=
  run p (setup p rtcFound buildTime w) sched

/-- Number of handler firings in a schedule. -/
def ticks : List Step → Nat
  | [] => 0
  | Step.tick :: rest => ticks rest + 1
  | Step.loop _ :: rest => ticks rest

/-- The handler fired `n` times in a row. -/
def fire (p : Target) : Nat → World → World
  | 0, w => w
  | n + 1, w => fire p n (TIMER0_COMPA_vect p w)

/-- The characters a step from `w` to `w'` added to the serial output. -/
def written (w w' : World) : List Char :=
  w'.serial.drop w.serial.length

/-- A step from `w` writes to the serial output. -/
def emits (p : Target) (w : World) (st : Step) : Prop :=
  (sketchStep p w st).serial ≠ w.serial

instance (p : Target) (w : World) (st : Step) : Decidable (emits p w st) := by
  unfold emits
  infer_instance

/-- A world right after reset of the micro-controller, before `setup()`. -/
def powerOn : World :=
  { timer := 0, serial := [], baud := none, flushes := 0, rtcAdjusts := [],
    rtcQueries := 0, TCCR0A := 0, TCCR0B := 0, OCR0A := 0, TIMSK0 := 0,
    iflag := false, aborted := false }

/-- Two-character rendering of a clock field below 100. -/
def twoDigits (v : Nat) : List Char :=
  [Nat.digitChar (v / 10), Nat.digitChar (v % 10)]

/-- The characters lines 40-44 (47-51, 54-58) write for one clock field. -/
def clockField (v : Nat) : List Char :=
  (if v < 10 then ['0'] else []) ++ Nat.toDigits 10 v

/-! ## `loop()` statement by statement, with the handler in between -/

/-- Program points of `loop()`, named after the line that runs next. -/
inductive Pc where
  | l32 | l34 | l35 | l40 | l44 | l45 | l47 | l51 | l52 | l54 | l58 | l59 | l60 | l61
deriving DecidableEq, Repr

/-- A configuration of the running sketch: the world, the program point of
`loop()`, its locals, and two ghost fields that only record history. -/
structure Cfg where
  world : World
  pc : Pc
  hour : Nat
  minute : Nat
  second : Nat
  /-- Ghost: number of handler firings so far. -/
  fired : Nat
  /-- Ghost: the counter values the test of line 32 read each time it
  succeeded, i.e. each time a reset followed. -/
  observed : List Nat
deriving DecidableEq, Repr

/-- What can happen next: the handler fires, or the statement at the program
point runs (`now` is what `rtc.now()` would answer). -/
inductive Ev where
  | irq
  | stmt (now : DateTime)
deriving DecidableEq, Repr

/-- The statement at the program point.  A failed test at line 32 ends the
call; the Arduino core calls `loop()` again, so the point stays line 32. -/
def stmtStep (now : DateTime) (c : Cfg) : Cfg :=
  match c.pc with
  | Pc.l32 =>
    if c.world.timer ≥ 1000 then
      { c with pc := Pc.l34, observed := c.observed ++ [c.world.timer] }
    else c
  | Pc.l34 => { c with world := { c.world with timer := 0 }, pc := Pc.l35 }
  | Pc.l35 =>
    { c with world := { c.world with rtcQueries := c.world.rtcQueries + 1 },
             hour := now.hour, minute := now.minute, second := now.second, pc := Pc.l40 }
  | Pc.l40 =>
    { c with world := if c.hour < 10 then printChar '0' c.world else c.world, pc := Pc.l44 }
  | Pc.l44 => { c with world := printDec c.hour c.world, pc := Pc.l45 }
  | Pc.l45 => { c with world := printStr ":" c.world, pc := Pc.l47 }
  | Pc.l47 =>
    { c with world := if c.minute < 10 then printChar '0' c.world else c.world, pc := Pc.l51 }
  | Pc.l51 => { c with world := printDec c.minute c.world, pc := Pc.l52 }
  | Pc.l52 => { c with world := printStr ":" c.world, pc := Pc.l54 }
  | Pc.l54 =>
    { c with world := if c.second < 10 then printChar '0' c.world else c.world, pc := Pc.l58 }
  | Pc.l58 => { c with world := printDec c.second c.world, pc := Pc.l59 }
  | Pc.l59 => { c with world := printChar '\t' c.world, pc := Pc.l60 }
  | Pc.l60 => { c with world := printDec c.world.timer c.world, pc := Pc.l61 }
  | Pc.l61 => { c with world := printChar '\n' c.world, pc := Pc.l32 }

/-- One event. -/
def evStep (p : Target) (c : Cfg) : Ev → Cfg
  | Ev.irq => { c with world := TIMER0_COMPA_vect p c.world, fired := c.fired + 1 }
  | Ev.stmt now => stmtStep now c

/-- A sequence of events, first event first. -/
def runEvs (p : Target) (c : Cfg) (evs : List Ev) : Cfg :=
  evs.foldl (evStep p) c

/-- The configuration in which the core first calls `loop()` on world `w`. -/
def enterLoop (w : World) : Cfg :=
  { world := w, pc := Pc.l32, hour := 0, minute := 0, second := 0, fired := 0, observed := [] }

/-- One call of `loop()` statement by statement in which the handler fires
`k` times between the reset of line 34 and the rest of the body, and at no
other point. -/
def iterationWithIrqs (now : DateTime) (k : Nat) : List Ev :=
  [Ev.stmt now, Ev.stmt now] ++ List.replicate k Ev.irq ++ List.replicate 12 (Ev.stmt now)

/-- From a successful `setup()` on the ATmega328P: the handler fires 1000
times, line 32 runs, the handler fires once more, line 34 runs. -/
def lostTickRun : Cfg :=
  runEvs atmega328p (enterLoop (setup atmega328p true ⟨12, 0, 0⟩ powerOn))
    (List.replicate 1000 Ev.irq ++ [Ev.stmt ⟨12, 0, 1⟩, Ev.irq, Ev.stmt ⟨12, 0, 1⟩])

/-- The same events with the extra firing moved behind the reset: the
handler fires 1000 times, lines 32 and 34 run, the handler fires once. -/
def keptTickRun : Cfg :=
  runEvs atmega328p (enterLoop (setup atmega328p true ⟨12, 0, 0⟩ powerOn))
    (List.replicate 1000 Ev.irq ++ [Ev.stmt ⟨12, 0, 1⟩, Ev.stmt ⟨12, 0, 1⟩, Ev.irq])

/-! ## Helper lemmas -/

theorem clockField_eq_twoDigits : ∀ v, v < 100 → clockField v = twoDigits v := by
  decide

theorem append_ne_self_of_ne_nil {α : Type} (l x : List α) (hx : x ≠ []) : l ++ x ≠ l := by
  intro h
  have hlen := congrArg List.length h
  rw [List.length_append] at hlen
  have : x.length = 0 := by omega
  exact hx (List.length_eq_zero.mp this)

/-- The whole effect of a triggering `loop()`. -/
theorem loop_eq (now : DateTime) (w : World) (ht : 1000 ≤ w.timer) :
    loop now w =
      { w with
        timer := 0
        rtcQueries := w.rtcQueries + 1
        serial := w.serial ++ (clockField now.hour ++ ':' :: (clockField now.minute ++
          ':' :: (clockField now.second ++ ['\t', '0', '\n']))) } := by
  unfold loop clockField
  simp only [ge_iff_le, ht, if_true, printChar, printDec, printStr]
  have h0 : Nat.digitChar 0 = '0' := rfl
  split_ifs <;> simp [Nat.toDigits, Nat.toDigitsCore, h0]

/-- What a triggering `loop()` leaves in the serial output. -/
theorem loop_serial (now : DateTime) (w : World) (ht : 1000 ≤ w.timer) :
    (loop now w).serial =
      w.serial ++ (clockField now.hour ++ ':' :: (clockField now.minute ++
        ':' :: (clockField now.second ++ ['\t', '0', '\n']))) := by
  rw [loop_eq now w ht]

theorem loop_timer (now : DateTime) (w : World) (ht : 1000 ≤ w.timer) :
    (loop now w).timer = 0 := by
  rw [loop_eq now w ht]

theorem loop_idle (now : DateTime) (w : World) (ht : w.timer < 1000) : loop now w = w := by
  unfold loop
  simp [Nat.not_le.mpr ht]

theorem loop_written (now : DateTime) (w : World) (ht : 1000 ≤ w.timer) :
    written w (loop now w) =
      clockField now.hour ++ ':' :: (clockField now.minute ++
        ':' :: (clockField now.second ++ ['\t', '0', '\n'])) := by
  unfold written
  rw [loop_serial now w ht, List.drop_left]

theorem digitChar_isDigit : ∀ d, d < 10 → (Nat.digitChar d).isDigit = true := by
  decide

theorem toDigitsCore_isDigit (f : Nat) : ∀ (n : Nat) (ds : List Char),
    (∀ c ∈ ds, c.isDigit = true) → ∀ c ∈ Nat.toDigitsCore 10 f n ds, c.isDigit = true := by
  induction f with
  | zero => intro n ds hds c hc; simpa [Nat.toDigitsCore] using hds c hc
  | succ f ih =>
    intro n ds hds c hc
    have hd : ∀ c ∈ Nat.digitChar (n % 10) :: ds, c.isDigit = true := by
      intro c hc
      rcases List.mem_cons.mp hc with h | h
      · rw [h]; exact digitChar_isDigit _ (Nat.mod_lt _ (by decide))
      · exact hds c h
    simp only [Nat.toDigitsCore] at hc
    split_ifs at hc
    · exact hd c hc
    · exact ih _ _ hd c hc

theorem toDigits_isDigit (n : Nat) : ∀ c ∈ Nat.toDigits 10 n, c.isDigit = true :=
  toDigitsCore_isDigit (n + 1) n [] (by simp)

theorem clockField_isDigit (v : Nat) : ∀ c ∈ clockField v, c.isDigit = true := by
  intro c hc
  unfold clockField at hc
  rcases List.mem_append.mp hc with h | h
  · split_ifs at h
    · simp only [List.mem_singleton] at h; rw [h]; rfl
    · simp at h
  · exact toDigits_isDigit v c h

theorem clockField_count (v : Nat) (x : Char) (hx : x.isDigit = false) :
    (clockField v).count x = 0 := by
  rw [List.count_eq_zero]
  intro hmem
  have := clockField_isDigit v x hmem
  rw [hx] at this
  exact Bool.noConfusion this

theorem fire_eq (p : Target) (n : Nat) : ∀ w : World, w.timer < 2 ^ p.uintBits →
    fire p n w = { w with timer := (w.timer + n) % 2 ^ p.uintBits } := by
  induction n with
  | zero => intro w hw; simp [fire, Nat.mod_eq_of_lt hw]
  | succ n ih =>
    intro w hw
    have hpos : 0 < 2 ^ p.uintBits := Nat.pow_pos (by decide)
    have hlt : (TIMER0_COMPA_vect p w).timer < 2 ^ p.uintBits := Nat.mod_lt _ hpos
    rw [fire, ih _ hlt]
    simp only [TIMER0_COMPA_vect, Nat.mod_add_mod]
    rw [Nat.add_assoc, Nat.add_comm 1 n]

theorem run_append (p : Target) (w : World) (a b : List Step) :
    run p w (a ++ b) = run p (run p w a) b := by
  simp [run, List.foldl_append]

theorem sketchStep_loop_running (p : Target) (w : World) (now : DateTime)
    (ha : w.aborted = false) : sketchStep p w (Step.loop now) = loop now w := by
  simp [sketchStep, ha]

theorem sketchStep_loop_halted (p : Target) (w : World) (now : DateTime)
    (ha : w.aborted = true) : sketchStep p w (Step.loop now) = w := by
  simp [sketchStep, ha]

theorem loop_aborted (now : DateTime) (w : World) : (loop now w).aborted = w.aborted := by
  by_cases ht : 1000 ≤ w.timer
  · rw [loop_eq now w ht]
  · rw [loop_idle now w (by omega)]

theorem sketchStep_aborted (p : Target) (w : World) (st : Step) :
    (sketchStep p w st).aborted = w.aborted := by
  cases st with
  | tick => rfl
  | loop now =>
    cases hab : w.aborted with
    | true => rw [sketchStep_loop_halted p w now hab]; exact hab
    | false => rw [sketchStep_loop_running p w now hab, loop_aborted]; exact hab

theorem run_aborted (p : Target) (sched : List Step) : ∀ w : World,
    (run p w sched).aborted = w.aborted := by
  induction sched with
  | nil => intro w; rfl
  | cons st rest ih =>
    intro w
    show (run p (sketchStep p w st) rest).aborted = w.aborted
    rw [ih, sketchStep_aborted]

theorem loop_timer_le (now : DateTime) (w : World) : (loop now w).timer ≤ w.timer := by
  by_cases ht : 1000 ≤ w.timer
  · rw [loop_timer now w ht]; exact Nat.zero_le _
  · rw [loop_idle now w (by omega)]

theorem sketchStep_timer_le (p : Target) (w : World) (st : Step) :
    (sketchStep p w st).timer ≤ w.timer + ticks [st] := by
  cases st with
  | tick => exact Nat.mod_le _ _
  | loop now =>
    cases hab : w.aborted with
    | true => rw [sketchStep_loop_halted p w now hab]; exact Nat.le_add_right _ _
    | false =>
      rw [sketchStep_loop_running p w now hab]
      exact Nat.le_trans (loop_timer_le now w) (Nat.le_add_right _ _)

theorem ticks_cons (st : Step) (rest : List Step) :
    ticks (st :: rest) = ticks [st] + ticks rest := by
  cases st with
  | tick => simp [ticks]; omega
  | loop now => simp [ticks]

theorem run_timer_le (p : Target) (sched : List Step) : ∀ w : World,
    (run p w sched).timer ≤ w.timer + ticks sched := by
  induction sched with
  | nil => intro w; simp [run, ticks]
  | cons st rest ih =>
    intro w
    have h1 := ih (sketchStep p w st)
    have h2 := sketchStep_timer_le p w st
    have h3 := ticks_cons st rest
    show (run p (sketchStep p w st) rest).timer ≤ _
    omega

theorem emits_loop_iff (p : Target) (w : World) (now : DateTime) :
    emits p w (Step.loop now) ↔ w.aborted = false ∧ 1000 ≤ w.timer := by
  unfold emits
  cases hab : w.aborted with
  | true =>
    rw [sketchStep_loop_halted p w now hab]
    simp
  | false =>
    rw [sketchStep_loop_running p w now hab]
    constructor
    · intro hne
      refine ⟨rfl, ?_⟩
      by_contra hlt
      exact hne (by rw [loop_idle now w (by omega)])
    · rintro ⟨_, ht⟩
      rw [loop_serial now w ht]
      exact append_ne_self_of_ne_nil _ _ (by simp)

theorem loop_step_timer_lt (p : Target) (w : World) (now : DateTime) (ha : w.aborted = false) :
    (sketchStep p w (Step.loop now)).timer < 1000 := by
  rw [sketchStep_loop_running p w now ha]
  by_cases ht : 1000 ≤ w.timer
  · rw [loop_timer now w ht]; decide
  · rw [loop_idle now w (by omega)]; omega

theorem run_of_aborted (p : Target) (sched : List Step) : ∀ w : World, w.aborted = true →
    ∃ t, run p w sched = { w with timer := t } := by
  induction sched with
  | nil => intro w _; exact ⟨w.timer, rfl⟩
  | cons st rest ih =>
    intro w ha
    have hs : ∃ t, sketchStep p w st = { w with timer := t } := by
      cases st with
      | tick => exact ⟨_, rfl⟩
      | loop now => exact ⟨w.timer, by rw [sketchStep_loop_halted p w now ha]⟩
    obtain ⟨t1, h1⟩ := hs
    obtain ⟨t2, h2⟩ := ih { w with timer := t1 } ha
    refine ⟨t2, ?_⟩
    show run p (sketchStep p w st) rest = _
    rw [h1, h2]

theorem run_replicate_tick (p : Target) (n : Nat) : ∀ w : World,
    run p w (List.replicate n Step.tick) = fire p n w := by
  induction n with
  | zero => intro w; rfl
  | succ n ih =>
    intro w
    show run p (sketchStep p w Step.tick) (List.replicate n Step.tick) = _
    rw [ih]
    rfl

theorem runEvs_append (p : Target) (c : Cfg) (a b : List Ev) :
    runEvs p c (a ++ b) = runEvs p (runEvs p c a) b := by
  simp [runEvs, List.foldl_append]

theorem runEvs_replicate_irq (p : Target) (n : Nat) : ∀ c : Cfg,
    runEvs p c (List.replicate n Ev.irq) =
      { c with world := fire p n c.world, fired := c.fired + n } := by
  induction n with
  | zero => intro c; rfl
  | succ n ih =>
    intro c
    show runEvs p (evStep p c Ev.irq) (List.replicate n Ev.irq) = _
    rw [ih]
    simp only [evStep, fire, Nat.add_assoc, Nat.add_comm 1 n]

/-- The body of a triggering `loop()` from line 35 on, statement by statement
with no interrupt. -/
theorem runEvs_body (p : Target) (now : DateTime) (c : Cfg) (hpc : c.pc = Pc.l35) :
    runEvs p c (List.replicate 12 (Ev.stmt now)) =
      { c with
        pc := Pc.l32
        hour := now.hour
        minute := now.minute
        second := now.second
        world := { c.world with
          rtcQueries := c.world.rtcQueries + 1
          serial := c.world.serial ++ (clockField now.hour ++ ':' :: (clockField now.minute ++
            ':' :: (clockField now.second ++
              '\t' :: (Nat.toDigits 10 c.world.timer ++ ['\n'])))) } } := by
  obtain ⟨w, pc, h, m, s, f, o⟩ := c
  simp only at hpc
  subst hpc
  simp only [runEvs, List.replicate, List.foldl, evStep, stmtStep, printChar, printDec,
    printStr, clockField]
  split_ifs <;> simp

/-- A triggering call of `loop()` run statement by statement, with `k`
handler firings right after the reset. -/
theorem runEvs_iteration (p : Target) (now : DateTime) (w : World) (k : Nat)
    (ht : 1000 ≤ w.timer) :
    runEvs p (enterLoop w) (iterationWithIrqs now k) =
      { world := { w with
          timer := k % 2 ^ p.uintBits
          rtcQueries := w.rtcQueries + 1
          serial := w.serial ++ (clockField now.hour ++ ':' :: (clockField now.minute ++
            ':' :: (clockField now.second ++
              '\t' :: (Nat.toDigits 10 (k % 2 ^ p.uintBits) ++ ['\n'])))) }
        pc := Pc.l32
        hour := now.hour
        minute := now.minute
        second := now.second
        fired := k
        observed := [w.timer] } := by
  have hpos : 0 < 2 ^ p.uintBits := Nat.pow_pos (by decide)
  have h2 : runEvs p (enterLoop w) [Ev.stmt now, Ev.stmt now] =
      { world := { w with timer := 0 }, pc := Pc.l35, hour := 0, minute := 0, second := 0,
        fired := 0, observed := [w.timer] } := by
    simp [runEvs, evStep, stmtStep, enterLoop, ht]
  unfold iterationWithIrqs
  rw [runEvs_append, runEvs_append, h2, runEvs_replicate_irq, runEvs_body p now _ rfl]
  simp only [fire_eq p k { w with timer := 0 } hpos, Nat.zero_add]

/-! ## The scheduler loop, one iteration without interrupts -/

/-- C1, as the code has it: a triggering iteration of `loop()` with an
in-range timestamp writes `HH:MM:SS`, a tab, the decimal rendering of the
counter as it is read at line 60, after the reset of line 34 (so `0` when no
interrupt fires during the iteration), and a newline; the counter value that
was compared against 1000 does not appear in the line. -/
theorem loop_writes_timestamp_and_reset_counter (now : DateTime) (w : World)
    (hh : now.hour < 24) (hm : now.minute < 60) (hs : now.second < 60)
    (ht : 1000 ≤ w.timer) :
    (loop now w).serial = w.serial ++ written w (loop now w) ∧
    written w (loop now w) =
      twoDigits now.hour ++ ':' :: (twoDigits now.minute ++ ':' :: (twoDigits now.second ++
        '\t' :: (Nat.toDigits 10 (loop now w).timer ++ ['\n']))) ∧
    Nat.toDigits 10 (loop now w).timer = ['0'] := by
  have hw := loop_written now w ht
  rw [clockField_eq_twoDigits _ (by omega), clockField_eq_twoDigits _ (by omega),
    clockField_eq_twoDigits _ (by omega)] at hw
  refine ⟨?_, ?_, ?_⟩
  · rw [loop_serial now w ht, loop_written now w ht]
  · rw [hw, loop_timer now w ht]; rfl
  · rw [loop_timer now w ht]; rfl

/-- Witness for C1 as amended: hour 7, minute 5, second 30 and counter 1003
give the line `07:05:30<TAB>0<NEWLINE>`. -/
theorem loop_writes_timestamp_and_reset_counter_witness :
    written { powerOn with timer := 1003 } (loop ⟨7, 5, 30⟩ { powerOn with timer := 1003 }) =
      "07:05:30\t0\n".toList :=
  (loop_writes_timestamp_and_reset_counter ⟨7, 5, 30⟩ { powerOn with timer := 1003 }
    (by decide) (by decide) (by decide) (by decide)).2.1

/-- C1 as stated fails: with hour 7, minute 5, second 30 and counter 1003 the
iteration does not write `07:05:30<TAB>1003<NEWLINE>` (it writes a tick field
of `0`), and with 23:59:59 and counter 1000 it does not write
`23:59:59<TAB>1000<NEWLINE>`. -/
theorem loop_does_not_write_pre_reset_counter :
    written { powerOn with timer := 1003 } (loop ⟨7, 5, 30⟩ { powerOn with timer := 1003 }) ≠
      "07:05:30\t1003\n".toList ∧
    written { powerOn with timer := 1000 } (loop ⟨23, 59, 59⟩ { powerOn with timer := 1000 }) ≠
      "23:59:59\t1000\n".toList := by
  decide

/-- C2: one iteration of `loop()` (no interrupt during it) writes to the
serial output if and only if the counter is at least 1000 when checked, and
whenever it writes, the counter is exactly 0 afterwards. -/
theorem loop_writes_iff_threshold_reached (now : DateTime) (w : World) :
    ((loop now w).serial ≠ w.serial ↔ 1000 ≤ w.timer) ∧
    ((loop now w).serial ≠ w.serial → (loop now w).timer = 0) := by
  have key : (loop now w).serial ≠ w.serial ↔ 1000 ≤ w.timer := by
    constructor
    · intro hne
      by_contra hlt
      exact hne (by rw [loop_idle now w (by omega)])
    · intro ht
      rw [loop_serial now w ht]
      apply append_ne_self_of_ne_nil
      simp
  exact ⟨key, fun hne => loop_timer now w (key.mp hne)⟩

/-- C3: with the counter below 1000 one iteration of `loop()` does nothing:
the world is unchanged, in particular the counter keeps its value, nothing is
written and the RTC is not queried. -/
theorem loop_below_threshold_does_nothing (now : DateTime) (w : World)
    (ht : w.timer < 1000) :
    loop now w = w ∧ (loop now w).timer = w.timer ∧ written w (loop now w) = [] ∧
    (loop now w).serial = w.serial ∧ (loop now w).rtcQueries = w.rtcQueries := by
  rw [loop_idle now w ht]
  simp [written]

/-- Witness for C3: counter 999 on a world with earlier output. -/
theorem loop_below_threshold_does_nothing_witness :
    loop ⟨7, 5, 30⟩ { powerOn with timer := 999, serial := ['x'], rtcQueries := 4 } =
      { powerOn with timer := 999, serial := ['x'], rtcQueries := 4 } :=
  (loop_below_threshold_does_nothing ⟨7, 5, 30⟩
    { powerOn with timer := 999, serial := ['x'], rtcQueries := 4 } (by decide)).1

/-- C5: with an in-range timestamp the line of a triggering iteration begins
with two decimal digits of the hour, a colon, two of the minute, a colon, two
of the second, and its ninth character is a tab; each two-digit field is `0`
followed by the plain decimal when the value is below 10 and the plain decimal
otherwise, and all its characters are ASCII digits (0 gives `00`, 9 gives
`09`, 10 gives `10`). -/
theorem loop_line_begins_with_two_digit_fields (now : DateTime) (w : World)
    (hh : now.hour < 24) (hm : now.minute < 60) (hs : now.second < 60)
    (ht : 1000 ≤ w.timer) :
    (written w (loop now w)).take 9 =
      [Nat.digitChar (now.hour / 10), Nat.digitChar (now.hour % 10), ':',
       Nat.digitChar (now.minute / 10), Nat.digitChar (now.minute % 10), ':',
       Nat.digitChar (now.second / 10), Nat.digitChar (now.second % 10), '\t'] ∧
    (∀ v ∈ [now.hour, now.minute, now.second],
      [Nat.digitChar (v / 10), Nat.digitChar (v % 10)] =
          (if v < 10 then '0' :: Nat.toDigits 10 v else Nat.toDigits 10 v) ∧
        (Nat.digitChar (v / 10)).isDigit = true ∧ (Nat.digitChar (v % 10)).isDigit = true) ∧
    ((written w (loop ⟨0, 9, 10⟩ w)).take 9 = "00:09:10\t".toList) := by
  refine ⟨?_, ?_, ?_⟩
  · rw [loop_written now w ht, clockField_eq_twoDigits _ (by omega),
      clockField_eq_twoDigits _ (by omega), clockField_eq_twoDigits _ (by omega)]
    rfl
  · intro v hv
    have hv60 : v < 60 := by
      simp only [List.mem_cons, List.mem_singleton, List.not_mem_nil, or_false] at hv
      rcases hv with h | h | h <;> omega
    have hf := clockField_eq_twoDigits v (by omega)
    refine ⟨?_, ?_, ?_⟩
    · unfold clockField twoDigits at hf
      rw [← hf]
      split_ifs <;> simp
    · exact digitChar_isDigit _ (by omega)
    · exact digitChar_isDigit _ (by omega)
  · rw [loop_written _ w ht]
    rfl

/-- Witness for C5: 07:05:30 with counter 1003. -/
theorem loop_line_begins_with_two_digit_fields_witness :
    (written { powerOn with timer := 1003 }
      (loop ⟨7, 5, 30⟩ { powerOn with timer := 1003 })).take 9 = "07:05:30\t".toList :=
  (loop_line_begins_with_two_digit_fields ⟨7, 5, 30⟩ { powerOn with timer := 1003 }
    (by decide) (by decide) (by decide) (by decide)).1

/-- C7: a triggering iteration of `loop()` writes exactly one line: the text
it writes is not empty, contains exactly one newline character, and that
newline is the last character written (for every timestamp, in range or not,
and every counter value of at least 1000). -/
theorem loop_writes_exactly_one_line (now : DateTime) (w : World) (ht : 1000 ≤ w.timer) :
    (written w (loop now w)).count '\n' = 1 ∧
    (written w (loop now w)).getLast? = some '\n' ∧
    (loop now w).serial = w.serial ++ written w (loop now w) := by
  have hnl : ('\n' : Char).isDigit = false := by decide
  refine ⟨?_, ?_, ?_⟩
  · rw [loop_written now w ht]
    simp only [List.count_append, List.count_cons, clockField_count _ _ hnl]
    decide
  · have hsplit : written w (loop now w) =
        (clockField now.hour ++ ':' :: (clockField now.minute ++
          ':' :: (clockField now.second ++ ['\t', '0']))) ++ ['\n'] := by
      rw [loop_written now w ht]; simp
    rw [hsplit, List.getLast?_concat]
  · rw [loop_serial now w ht, loop_written now w ht]

/-- Witness for C7: 23:59:59 with counter 1000. -/
theorem loop_writes_exactly_one_line_witness :
    (written { powerOn with timer := 1000 }
      (loop ⟨23, 59, 59⟩ { powerOn with timer := 1000 })).count '\n' = 1 :=
  (loop_writes_exactly_one_line ⟨23, 59, 59⟩ { powerOn with timer := 1000 } (by decide)).1

/-! ## The tick counter -/

/-- C4, as the code has it: from a counter value `v` that fits the type,
`N` firings of the handler with no reset in between leave every other part of
the world as it was and the counter at `(v + N) mod 2 ^ uintBits`; this is
`v + N` as long as `v + N` still fits `unsigned int`. -/
theorem fire_counter_wraps (p : Target) (n : Nat) (w : World)
    (hw : w.timer < 2 ^ p.uintBits) :
    fire p n w = { w with timer := (w.timer + n) % 2 ^ p.uintBits } ∧
    (w.timer + n < 2 ^ p.uintBits → (fire p n w).timer = w.timer + n) ∧
    TIMER0_COMPA_vect p w = { w with timer := (w.timer + 1) % 2 ^ p.uintBits } := by
  refine ⟨fire_eq p n w hw, ?_, rfl⟩
  intro hlt
  rw [fire_eq p n w hw]
  exact Nat.mod_eq_of_lt hlt

/-- Witness for C4 as amended: 1000 firings from 0 on the ATmega328P. -/
theorem fire_counter_wraps_witness :
    powerOn.timer < 2 ^ atmega328p.uintBits ∧
    fire atmega328p 1000 powerOn =
      { powerOn with timer := (powerOn.timer + 1000) % 2 ^ atmega328p.uintBits } :=
  ⟨by decide, (fire_counter_wraps atmega328p 1000 powerOn (by decide)).1⟩

/-- C4 as stated fails: on the ATmega328P one firing from counter value 65535
leaves the counter at 0, not at 65536. -/
theorem fire_at_uint_max_is_zero :
    (fire atmega328p 1 { powerOn with timer := 65535 }).timer = 0 ∧
    (fire atmega328p 1 { powerOn with timer := 65535 }).timer ≠ 65535 + 1 ∧
    (TIMER0_COMPA_vect atmega328p { powerOn with timer := 65535 }).timer ≠ 65535 + 1 := by
  decide

/-! ## Start-up -/

/-- C6: when `rtc.begin()` reports failure, `setup()` writes the one message
`Couldn't find RTC` (with the line end of `println`), flushes and aborts; it
does not call `rtc.adjust`, leaves the timer registers and the interrupt flag
as they were, and in every run of the sketch that follows nothing more is
written, the RTC is never queried or adjusted and the registers stay
untouched: only the counter can still change. -/
theorem setup_without_rtc_reports_and_halts (p : Target) (buildTime : DateTime) (w : World)
    (sched : List Step) :
    setup p false buildTime w =
      { w with baud := some 9600, serial := w.serial ++ "Couldn't find RTC\r\n".toList,
               flushes := w.flushes + 1, aborted := true } ∧
    (setup p false buildTime w).rtcAdjusts = w.rtcAdjusts ∧
    (setup p false buildTime w).TCCR0A = w.TCCR0A ∧
    (setup p false buildTime w).TCCR0B = w.TCCR0B ∧
    (setup p false buildTime w).OCR0A = w.OCR0A ∧
    (setup p false buildTime w).TIMSK0 = w.TIMSK0 ∧
    (setup p false buildTime w).iflag = w.iflag ∧
    runSketch p false buildTime w sched =
      { setup p false buildTime w with timer := (runSketch p false buildTime w sched).timer } ∧
    (runSketch p false buildTime w sched).serial =
      w.serial ++ "Couldn't find RTC\r\n".toList ∧
    (runSketch p false buildTime w sched).rtcQueries = w.rtcQueries ∧
    (runSketch p false buildTime w sched).rtcAdjusts = w.rtcAdjusts := by
  have hs : setup p false buildTime w =
      { w with baud := some 9600, serial := w.serial ++ "Couldn't find RTC\r\n".toList,
               flushes := w.flushes + 1, aborted := true } := by
    simp [setup, println]
  obtain ⟨t, hr⟩ := run_of_aborted p sched (setup p false buildTime w) (by rw [hs])
  have hrs : runSketch p false buildTime w sched =
      { setup p false buildTime w with timer := t } := hr
  refine ⟨hs, by rw [hs], by rw [hs], by rw [hs], by rw [hs], by rw [hs], by rw [hs], ?_,
    ?_, ?_, ?_⟩
  · rw [hrs]
  · rw [hrs, hs]
  · rw [hrs, hs]
  · rw [hrs, hs]

/-! ## Runs of handler firings and loop iterations -/

/-- C9: in a run of atomic steps (one handler firing or one `loop()` call
each) from a world with counter 0 in which `setup()` has returned, the counter
is below 1000 after every `loop()` call; two `loop()` calls in a row never
both write a line; and a `loop()` call that writes a line is preceded by at
least 1000 handler firings since the start of the run, and since any earlier
`loop()` call that wrote a line. -/
theorem run_emits_only_after_thousand_ticks (p : Target) (w0 : World)
    (h0 : w0.timer = 0) (ha : w0.aborted = false)
    (pre seg : List Step) (now now' : DateTime) :
    (run p w0 (pre ++ [Step.loop now])).timer < 1000 ∧
    (emits p (run p w0 pre) (Step.loop now) →
      ¬ emits p (run p w0 (pre ++ [Step.loop now])) (Step.loop now')) ∧
    ((pre = [] ∨ ∃ pre' n, pre = pre' ++ [Step.loop n] ∧
        emits p (run p w0 pre') (Step.loop n)) →
      emits p (run p w0 (pre ++ seg)) (Step.loop now) → 1000 ≤ ticks seg) := by
  have hlt : ∀ (l : List Step) (n : DateTime), (run p w0 (l ++ [Step.loop n])).timer < 1000 := by
    intro l n
    rw [run_append]
    exact loop_step_timer_lt p _ n (by rw [run_aborted]; exact ha)
  refine ⟨hlt pre now, ?_, ?_⟩
  · intro _ h2
    have h3 := ((emits_loop_iff p _ now').mp h2).2
    have h4 := hlt pre now
    omega
  · intro hpre hem
    have hz : (run p w0 pre).timer = 0 := by
      rcases hpre with h | ⟨pre', n, hp, he⟩
      · rw [h]; exact h0
      · have ht := ((emits_loop_iff p _ n).mp he).2
        rw [hp, run_append]
        show (sketchStep p (run p w0 pre') (Step.loop n)).timer = 0
        rw [sketchStep_loop_running p _ n (by rw [run_aborted]; exact ha)]
        exact loop_timer n _ ht
    have h5 := ((emits_loop_iff p _ now).mp hem).2
    rw [run_append] at h5
    have h6 := run_timer_le p seg (run p w0 pre)
    omega

/-- Witness for C9: after a successful `setup()` on the ATmega328P, 1000
firings and then a `loop()` call: the call writes a line, the counter is below
1000 afterwards and a second call right after it writes nothing. -/
theorem run_emits_only_after_thousand_ticks_witness :
    (setup atmega328p true ⟨12, 0, 0⟩ powerOn).timer = 0 ∧
    (setup atmega328p true ⟨12, 0, 0⟩ powerOn).aborted = false ∧
    emits atmega328p (run atmega328p (setup atmega328p true ⟨12, 0, 0⟩ powerOn)
      (List.replicate 1000 Step.tick)) (Step.loop ⟨12, 0, 1⟩) ∧
    (run atmega328p (setup atmega328p true ⟨12, 0, 0⟩ powerOn)
      (List.replicate 1000 Step.tick ++ [Step.loop ⟨12, 0, 1⟩])).timer < 1000 ∧
    ¬ emits atmega328p (run atmega328p (setup atmega328p true ⟨12, 0, 0⟩ powerOn)
      (List.replicate 1000 Step.tick ++ [Step.loop ⟨12, 0, 1⟩])) (Step.loop ⟨12, 0, 1⟩) :=
  have hem : emits atmega328p (run atmega328p (setup atmega328p true ⟨12, 0, 0⟩ powerOn)
      (List.replicate 1000 Step.tick)) (Step.loop ⟨12, 0, 1⟩) := by
    rw [emits_loop_iff, run_replicate_tick, fire_eq _ _ _ (by decide)]
    decide
  have h := run_emits_only_after_thousand_ticks atmega328p
    (setup atmega328p true ⟨12, 0, 0⟩ powerOn) (by decide) (by decide)
    (List.replicate 1000 Step.tick) [] ⟨12, 0, 1⟩ ⟨12, 0, 1⟩
  ⟨by decide, by decide, hem, h.1, h.2.1 hem⟩

/-! ## `loop()` with the handler in between its statements -/

/-- C10: in a triggering iteration of `loop()` the tick field is the counter
as read at line 60, after the reset of line 34, not the value compared against
1000.  With no interrupt during the iteration the text after the tab is `0`
and a newline for every counter value of at least 1000 and every timestamp, so
the line does not depend on that value; run statement by statement with `k`
handler firings right after the reset, the tick field is the decimal rendering
of `k` (as an `unsigned int`). -/
theorem loop_tick_field_is_counter_after_reset (p : Target) (now : DateTime) (w : World)
    (t k : Nat) (hw : 1000 ≤ w.timer) (ht : 1000 ≤ t) :
    written w (loop now w) =
      (clockField now.hour ++ ':' :: (clockField now.minute ++ ':' :: clockField now.second))
        ++ ['\t', '0', '\n'] ∧
    '\t' ∉ clockField now.hour ++ ':' :: (clockField now.minute ++ ':' :: clockField now.second) ∧
    written { w with timer := t } (loop now { w with timer := t }) = written w (loop now w) ∧
    (runEvs p (enterLoop w) (iterationWithIrqs now 0)).world = loop now w ∧
    written w (runEvs p (enterLoop w) (iterationWithIrqs now k)).world =
      (clockField now.hour ++ ':' :: (clockField now.minute ++ ':' :: clockField now.second))
        ++ '\t' :: (Nat.toDigits 10 (k % 2 ^ p.uintBits) ++ ['\n']) := by
  have htab : ('\t' : Char).isDigit = false := by decide
  refine ⟨?_, ?_, ?_, ?_, ?_⟩
  · rw [loop_written now w hw]; simp
  · intro hmem
    have hc : ∀ v, '\t' ∉ clockField v := fun v hv => by
      have := clockField_isDigit v _ hv
      rw [htab] at this
      exact Bool.noConfusion this
    simp only [List.mem_append, List.mem_cons] at hmem
    rcases hmem with h | h | h | h | h
    · exact hc _ h
    · exact absurd h (by decide)
    · exact hc _ h
    · exact absurd h (by decide)
    · exact hc _ h
  · rw [loop_written now w hw, loop_written now { w with timer := t } ht]
  · rw [runEvs_iteration p now w 0 hw, loop_eq now w hw]
    simp only [Nat.zero_mod]
    rfl
  · rw [runEvs_iteration p now w k hw]
    simp [written]

/-- Witness for C10: counters 1003 and 60000 at 07:05:30 give the same line,
whose tick field is `0`. -/
theorem loop_tick_field_is_counter_after_reset_witness :
    written { powerOn with timer := 60000 } (loop ⟨7, 5, 30⟩ { powerOn with timer := 60000 }) =
      written { powerOn with timer := 1003 } (loop ⟨7, 5, 30⟩ { powerOn with timer := 1003 }) ∧
    written { powerOn with timer := 1003 } (loop ⟨7, 5, 30⟩ { powerOn with timer := 1003 }) =
      "07:05:30".toList ++ ['\t', '0', '\n'] :=
  have h := loop_tick_field_is_counter_after_reset atmega328p ⟨7, 5, 30⟩
    { powerOn with timer := 1003 } 60000 0 (by decide) (by decide)
  ⟨h.2.2.1, h.1⟩

/-- C8 fails on the code: the test of line 32 and the reset of line 34 are
separate statements and the handler can fire between them.  After 1000
firings, the test (which reads 1000), one more firing and the reset, 1001
firings have happened but the values observed at resets sum to 1000 and the
counter is 0: one increment is lost.  When the same firing comes after the
reset instead, all 1001 firings are accounted for. -/
theorem tick_lost_between_test_and_reset :
    lostTickRun.fired = 1001 ∧ lostTickRun.observed = [1000] ∧ lostTickRun.pc = Pc.l35 ∧
    lostTickRun.world.timer = 0 ∧
    lostTickRun.fired ≠ lostTickRun.observed.sum + lostTickRun.world.timer ∧
    keptTickRun.fired = keptTickRun.observed.sum + keptTickRun.world.timer := by
  have h : lostTickRun =
      { world := { setup atmega328p true ⟨12, 0, 0⟩ powerOn with timer := 0 }, pc := Pc.l35,
        hour := 0, minute := 0, second := 0, fired := 1001, observed := [1000] } := by
    unfold lostTickRun
    rw [runEvs_append, runEvs_replicate_irq, fire_eq _ _ _ (by decide)]
    decide
  have h2 : keptTickRun =
      { world := { setup atmega328p true ⟨12, 0, 0⟩ powerOn with timer := 1 }, pc := Pc.l35,
        hour := 0, minute := 0, second := 0, fired := 1001, observed := [1000] } := by
    unfold keptTickRun
    rw [runEvs_append, runEvs_replicate_irq, fire_eq _ _ _ (by decide)]
    decide
  rw [h, h2]
  decide

end BinaryClock
